import Mathlib

/-!
Verification of the Simulation Orchestration Client (AI Trader Battlefield
frontend).  The definitions below are a shallow embedding of the logic in
`src/frontend/src/components/Dashboard.js` and
`src/frontend/src/components/CustomDropdown.js`: the six-slot agent
selection registry with its duplicate-prevention offering rule, the job
submission handler, the polling state transition, the progress-message
interpreter (modelling the JavaScript regular expression used there), and
the reset (`Back`) handler.  Stateful React `useState`/`useRef` cells are
modelled as fields of an explicit state record; the `setTimeout`-based
polling loop is modelled as a counter of pending scheduled/in-flight polls
driven by an event step function.
-/

namespace Battlefield

/-- The six fixed selection positions: keys `left-1` .. `right-3` of the
`selectedAgents` object in `Dashboard.js`. -/
inductive Slot where
  | left1 | left2 | left3 | right1 | right2 | right3
  deriving DecidableEq, Repr, Fintype

/-- `Object.values(selectedAgents)` enumeration order (insertion order of
the object literal at Dashboard.js lines 11-18). -/
def allSlots : List Slot :=
  [.left1, .left2, .left3, .right1, .right2, .right3]

/-- Selection State: each slot holds `null` or an agent identifier. -/
abbrev SelState := Slot → Option String

/-- `disabledLeft` / `disabledRight` at Dashboard.js lines 296-298:
`new Set(values.filter(a => a && a !== selectedAgents[key]))` — candidate
`a` is disabled for `slot` when some slot holds it, it is non-empty
(JavaScript truthiness), and it is not the queried slot's current value. -/
def disabledFor (sel : SelState) (slot : Slot) (a : String) : Bool :=
  (allSlots.any fun s => sel s == some a) && !(a == "") && !(sel slot == some a)

/-- `handleAgentSelect` (Dashboard.js line 72): overwrite the one slot. -/
def selectAgent (sel : SelState) (slot : Slot) (a : String) : SelState :=
  fun s => if s = slot then some a else sel s

/-- The option `onClick` guard in CustomDropdown.js line 77:
`if (disabledAgents.has(agent) && selected !== agent) return` — the click
goes through exactly when this is false. -/
def allowedSelect (sel : SelState) (slot : Slot) (a : String) : Bool :=
  !(disabledFor sel slot a && !(sel slot == some a))

/-- Selection states reachable from the initial all-`null` state by
clicks the interaction surface permits. -/
inductive ReachableSel : SelState → Prop where
  | init : ReachableSel (fun _ => none)
  | step (sel : SelState) (slot : Slot) (a : String) :
      ReachableSel sel → allowedSelect sel slot a = true →
      ReachableSel (selectAgent sel slot a)

/-- No two distinct slots hold the same non-empty identifier. -/
def DistinctSel (sel : SelState) : Prop :=
  ∀ s1 s2 a, s1 ≠ s2 → sel s1 = some a → sel s2 = some a → a = ""

/-- A concrete reachable selection (two allowed clicks). -/
def selTwo : SelState :=
  selectAgent (selectAgent (fun _ => none) .left1 "openai/gpt-4o") .right1
    "anthropic/claude"

/-- Per-agent generation state (the values of the `genStates` object). -/
inductive GenState where
  | pending | generating | done
  deriving DecidableEq, Repr

/-- `results.winner` of a completed snapshot (§6: `{ name, roi }`). -/
structure WinnerInfo where
  name : String
  roi : Rat
  deriving DecidableEq, Repr

/-- One `results.leaderboard` entry (§6: `{ name, roi, current_value }`). -/
structure LeaderEntry where
  name : String
  roi : Rat
  current_value : Rat
  deriving DecidableEq, Repr

/-- The terminal results payload; the display reads both fields
optionally (`simulationResults.winner &&`, `leaderboard?.map`). -/
structure SimResults where
  winner : Option WinnerInfo
  leaderboard : Option (List LeaderEntry)
  deriving DecidableEq, Repr

/-- The `progress` field of a status response: a JSON number, a value of
some other type, or absent — `typeof data.progress === 'number'`
distinguishes exactly the first case. -/
inductive ProgressField where
  | num (n : Int)
  | nonNum
  | missing
  deriving DecidableEq, Repr

/-- One status-poll response body (`GET /api/simulation/id`). -/
structure Snapshot where
  status : String
  progress : ProgressField
  message : Option String
  code_preview : Option String
  preview_model : Option String
  results : Option SimResults
  error : Option String
  deriving DecidableEq, Repr

/-- The Dashboard component state: every `useState` cell plus the two
`useRef` cells (`lastGeneratingRef`, `lastPreviewModelRef`) that the
orchestration logic reads or writes. -/
structure DashState where
  selectedAgents : SelState
  selectedStock : String
  simulationStatus : Option String
  simulationResults : Option SimResults
  isRunning : Bool
  showInstructions : Bool
  progress : Int
  currentTask : String
  genStates : String → Option GenState
  lastGenerating : Option String
  codePreview : String
  codePreviewModel : String
  lastPreviewModel : String

/-- `{ ...prev, [k]: v }` on the genStates object, as a lookup map. -/
def updGen (g : String → Option GenState) (k : String) (v : GenState) :
    String → Option GenState :=
  fun x => if x = k then some v else g x

/-! ### The progress-message pattern

`Dashboard.js` line 178 matches
`/Generating algorithm\s+(\d+)\/(\d+)\s+using\s+(.+?)\.\.\./i` and uses
capture group 3.  The functions below model that regular expression on
character lists: case-insensitive literals, greedy `\s+`/`\d+` runs
(giving back characters is modelled only where a following pattern
element could absorb them, i.e. at the `\s+` directly before the lazy
`(.+?)`), the lazy group stopping at the first `...` after at least one
non-line-terminator character, and the leftmost-match scan. -/

def caselessEq (a b : Char) : Bool := a.toLower == b.toLower

def dropCaselessLit : List Char → List Char → Option (List Char)
  | [], cs => some cs
  | _ :: _, [] => none
  | p :: ps, c :: cs => if caselessEq p c then dropCaselessLit ps cs else none

/-- Greedy one-or-more run of characters satisfying `p`. -/
def dropWhile1 (p : Char → Bool) : List Char → Option (List Char)
  | [] => none
  | c :: cs => if p c then some (cs.dropWhile p) else none

def expectChar (ch : Char) : List Char → Option (List Char)
  | [] => none
  | c :: cs => if c == ch then some cs else none

/-- All remainders after consuming one-or-more leading whitespace
characters, longest consumption first (backtracking order of `\s+`). -/
def wsSplits : List Char → List (List Char)
  | [] => []
  | c :: cs => if c.isWhitespace then wsSplits cs ++ [cs] else []

def isDots : List Char → Bool
  | '.' :: '.' :: '.' :: _ => true
  | _ => false

/-- The lazy group `(.+?)\.\.\.`: the shortest non-empty run of
non-line-terminator characters followed by three dots. -/
def lazyCapture : List Char → List Char → Option String
  | _, [] => none
  | acc, c :: cs =>
      if acc ≠ [] && isDots (c :: cs) then some (String.mk acc.reverse)
      else if c == '\n' || c == '\r' then none
      else lazyCapture (c :: acc) cs

/-- Attempt the whole pattern at the head of the input; returns capture
group 3 (the model name). -/
def matchGenAt (cs : List Char) : Option String :=
  (dropCaselessLit "Generating algorithm".toList cs).bind fun cs1 =>
  (dropWhile1 Char.isWhitespace cs1).bind fun cs2 =>
  (dropWhile1 Char.isDigit cs2).bind fun cs3 =>
  (expectChar '/' cs3).bind fun cs4 =>
  (dropWhile1 Char.isDigit cs4).bind fun cs5 =>
  (dropWhile1 Char.isWhitespace cs5).bind fun cs6 =>
  (dropCaselessLit "using".toList cs6).bind fun cs7 =>
  (wsSplits cs7).findSome? fun rem => lazyCapture [] rem

/-- Leftmost-match scan over start positions. -/
def scanGen : List Char → Option String
  | [] => none
  | c :: cs =>
      match matchGenAt (c :: cs) with
      | some m => some m
      | none => scanGen cs

/-- `message.match(/Generating algorithm\s+(\d+)\/(\d+)\s+using\s+(.+?)\.\.\./i)`,
returning capture group 3. -/
def extractGenModel (msg : String) : Option String := scanGen msg.toList

def startsWithCaseless : List Char → List Char → Bool
  | [], _ => true
  | _ :: _, [] => false
  | p :: ps, c :: cs => caselessEq p c && startsWithCaseless ps cs

def containsCaseless (pat : List Char) : List Char → Bool
  | [] => false
  | c :: cs => startsWithCaseless pat (c :: cs) || containsCaseless pat cs

/-- `/All algorithms generated successfully/i.test(message)`
(Dashboard.js line 190). -/
def isCompletionMsg (msg : String) : Bool :=
  containsCaseless "All algorithms generated successfully".toList msg.toList

/-- `parseProgressMessage` (Dashboard.js lines 175-199): always records
the message as the current task; on a generation-pattern match, marks the
previous generating model done when it differs, then marks the named
model generating and remembers it; on the completion phrase, marks every
present key done and clears the remembered model; otherwise no further
effect. -/
def parseProgressMessage (s : DashState) (message : String) : DashState :=
  let s0 := { s with currentTask := message }
  match extractGenModel message with
  | some model =>
      let s1 :=
        match s0.lastGenerating with
        | some prev =>
            if prev ≠ model then
              { s0 with genStates := updGen s0.genStates prev GenState.done }
            else s0
        | none => s0
      { s1 with lastGenerating := some model,
                genStates := updGen s1.genStates model GenState.generating }
  | none =>
      if isCompletionMsg message then
        { s0 with
          genStates := fun k => (s0.genStates k).map fun _ => GenState.done,
          lastGenerating := none }
      else s0

/-- `typeof data.progress === 'number' ? data.progress : 0`. -/
def pctOf (snap : Snapshot) : Int :=
  match snap.progress with
  | .num n => n
  | _ => 0

/-- The default status line built by the template literal. -/
def runningMsg (pct : Int) : String := "Running... " ++ toString pct ++ "%"

/-- `data.message || ...` — absent and empty messages both fall back. -/
def effectiveMessage (snap : Snapshot) : String :=
  match snap.message with
  | some m => if m = "" then runningMsg (pctOf snap) else m
  | none => runningMsg (pctOf snap)

/-- The code-preview update (Dashboard.js lines 152-161): only a truthy
`code_preview` is considered; the three preview cells are rewritten only
when the incoming model differs from `lastPreviewModelRef` or the
incoming code differs from the displayed preview. -/
def previewUpdate (s : DashState) (snap : Snapshot) : DashState :=
  match snap.code_preview with
  | none => s
  | some cp =>
      if cp = "" then s
      else if (snap.preview_model).getD "" ≠ s.lastPreviewModel ∨
              cp ≠ s.codePreview then
        { s with codePreview := cp,
                 codePreviewModel := (snap.preview_model).getD "",
                 lastPreviewModel := (snap.preview_model).getD "" }
      else s

/-- One poll response applied to the state (`pollSimulationStatus`,
Dashboard.js lines 138-166, without the re-scheduling side effect, which
`sysStep` models). -/
def pollStep (s : DashState) (snap : Snapshot) : DashState :=
  if snap.status = "completed" then
    { s with simulationResults := snap.results,
             simulationStatus := some "Simulation completed!",
             isRunning := false,
             progress := 100 }
  else if snap.status = "error" then
    { s with simulationStatus :=
               some ("Error: " ++ ((snap.error).getD "undefined")),
             isRunning := false }
  else
    let pct := pctOf snap
    let message := effectiveMessage snap
    let s1 := { s with simulationStatus := some message, progress := pct }
    let s2 := previewUpdate s1 snap
    parseProgressMessage s2 message

/-- `handleBack` (Dashboard.js lines 201-215). -/
def handleBack (s : DashState) : DashState :=
  { s with simulationResults := none,
           simulationStatus := none,
           isRunning := false,
           progress := 0,
           currentTask := "",
           codePreview := "",
           codePreviewModel := "",
           lastPreviewModel := "",
           genStates := fun _ => none,
           lastGenerating := none,
           showInstructions := true }

/-- Resolution of the one `POST /api/run` request: 2xx with a
`simulation_id`, non-2xx with an optional `error` body field, or a
transport/parse failure whose exception message is `m`. -/
inductive SubmitOutcome where
  | ok (simId : String)
  | httpErr (err : Option String)
  | transportErr (msg : String)
  deriving DecidableEq, Repr

/-- `Object.values(selectedAgents).filter(Boolean)`. -/
def nonEmptyAgents (s : DashState) : List String :=
  (allSlots.filterMap s.selectedAgents).filter fun a => a ≠ ""

/-- `data.error || 'Failed to start simulation'` (Dashboard.js line
123) — an absent and an empty-string `error` body field both fall back
to the generic message. -/
def submitErrMsg (e : Option String) : String :=
  match e with
  | some m => if m = "" then "Failed to start simulation" else m
  | none => "Failed to start simulation"

/-- `handleStartSimulation` (Dashboard.js lines 76-130), parametrised by
the outcome of the single creation request it issues; the second
component counts the creation requests issued. -/
def handleStartSimulation (s : DashState) (out : SubmitOutcome) :
    DashState × Nat :=
  let agents := nonEmptyAgents s
  if agents.length ≠ 6 then (s, 0)
  else if s.selectedStock = "" then (s, 0)
  else
    let s1 := { s with isRunning := true,
                       simulationResults := none,
                       simulationStatus := some "Starting simulation...",
                       showInstructions := false,
                       progress := 0,
                       genStates := fun k =>
                         if agents.contains k then some GenState.pending
                         else none,
                       lastGenerating := none }
    match out with
    | .ok _ => ({ s1 with simulationStatus := some "Simulation running..." }, 1)
    | .httpErr e =>
        ({ s1 with
           simulationStatus := some ("Error: " ++ submitErrMsg e),
           isRunning := false }, 1)
    | .transportErr m =>
        ({ s1 with simulationStatus := some ("Error: " ++ m),
                   isRunning := false }, 1)

/-- The dashboard state together with the number of scheduled or
in-flight polls (`setTimeout(() => pollSimulationStatus(simId), 2000)`
callbacks plus unresolved fetches). -/
structure SysState where
  dash : DashState
  pendingPolls : Nat

/-- Events the polling lifecycle reacts to: the Back button, and a
pending poll resolving with a response body. -/
inductive SysEv where
  | back
  | pollResp (snap : Snapshot)

/-- System step.  `handleBack` contains no `clearTimeout` and clears no
cancellation flag, so `back` leaves every pending poll scheduled; a
resolving poll applies `pollStep` to whatever the current state is (the
callback closes only over `simId`) and, in the running branch, schedules
exactly one further poll. -/
def sysStep (s : SysState) (e : SysEv) : SysState :=
  match e with
  | .back => ⟨handleBack s.dash, s.pendingPolls⟩
  | .pollResp snap =>
      if s.pendingPolls = 0 then s
      else
        ⟨pollStep s.dash snap,
         s.pendingPolls - 1 +
           (if snap.status ≠ "completed" ∧ snap.status ≠ "error" then 1
            else 0)⟩

/-- A successful submission from a valid state puts one poll in flight
(`pollSimulationStatus(simId)` is called immediately on the 2xx path). -/
def sysSubmit (s : SysState) (out : SubmitOutcome) : SysState :=
  let r := handleStartSimulation s.dash out
  match out with
  | .ok _ => ⟨r.1, s.pendingPolls + (if r.2 = 1 then 1 else 0)⟩
  | _ => ⟨r.1, s.pendingPolls⟩

/-- A concrete base dashboard state (fresh session, dataset chosen). -/
def dash0 : DashState :=
  { selectedAgents := fun _ => none,
    selectedStock := "AAPL_data.csv",
    simulationStatus := none,
    simulationResults := none,
    isRunning := false,
    showInstructions := true,
    progress := 0,
    currentTask := "",
    genStates := fun _ => none,
    lastGenerating := none,
    codePreview := "",
    codePreviewModel := "",
    lastPreviewModel := "" }

/-- State mid-run: "A" was the last generating model. -/
def dashGenA : DashState :=
  { dash0 with isRunning := true,
               showInstructions := false,
               genStates := fun k =>
                 if k = "A" then some GenState.generating
                 else if k = "B" then some GenState.pending else none,
               lastGenerating := some "A" }

/-- The snapshot-message sequence of the claim, interpreted in order
from the start-of-run state. -/
def seqState : DashState :=
  parseProgressMessage
    (parseProgressMessage
      { dash0 with isRunning := true, showInstructions := false,
                   genStates := fun k =>
                     if k = "A" then some GenState.pending
                     else if k = "B" then some GenState.pending else none }
      "Generating algorithm 1/6 using A...")
    "Generating algorithm 2/6 using B..."

/-- Six distinct selected agents. -/
def sixSel : SelState := fun s =>
  match s with
  | .left1 => some "m1"
  | .left2 => some "m2"
  | .left3 => some "m3"
  | .right1 => some "m4"
  | .right2 => some "m5"
  | .right3 => some "m6"

def dashSix : DashState := { dash0 with selectedAgents := sixSel }

/-- Six non-empty slots containing a duplicate ("m1" twice). -/
def dupSel : SelState := fun s =>
  match s with
  | .left1 => some "m1"
  | .left2 => some "m1"
  | .left3 => some "m3"
  | .right1 => some "m4"
  | .right2 => some "m5"
  | .right3 => some "m6"

def dashDup : DashState := { dash0 with selectedAgents := dupSel }

/-- The state mid-run after a valid submission: one poll in flight. -/
def sysRunning : SysState :=
  sysSubmit ⟨dashSix, 0⟩ (SubmitOutcome.ok "sim-1")

def snapRun40 : Snapshot :=
  ⟨"running", ProgressField.num 40, none, none, none, none, none⟩

/-- A running response with no usable progress field and no message. -/
def snapNoNum : Snapshot :=
  ⟨"running", ProgressField.missing, none, none, none, none, none⟩

/-- Mid-run state at 55 percent. -/
def dash55 : DashState := { dash0 with progress := 55, isRunning := true }

/-- Mid-run state at 90 percent. -/
def dash90 : DashState := { dash0 with progress := 90, isRunning := true }

/-- A running response that itself reports progress 100. -/
def snapRun100 : Snapshot :=
  ⟨"running", ProgressField.num 100, some "finishing", none, none, none,
    none⟩

/-- A completed response reporting a stale progress number. -/
def snapCompleted87 : Snapshot :=
  ⟨"completed", ProgressField.num 87, none, none, none, none, none⟩

/-- An error response. -/
def snapError12 : Snapshot :=
  ⟨"error", ProgressField.num 12, none, none, none, none, some "boom"⟩

/-- Mid-run state currently displaying a preview from model "M". -/
def dashPrevM : DashState :=
  { dash0 with isRunning := true, codePreview := "old code",
               codePreviewModel := "M", lastPreviewModel := "M" }

/-- A running response carrying a changed preview from the same model. -/
def snapNewCode : Snapshot :=
  ⟨"running", ProgressField.num 50, some "step", some "new code",
    some "M", none, none⟩

theorem mem_allSlots (s : Slot) : s ∈ allSlots := by
  cases s <;> simp [allSlots]

theorem disabledFor_false (sel : SelState) (slot : Slot) (a : String)
    (h : disabledFor sel slot a = false) :
    (∀ s, sel s ≠ some a) ∨ a = "" ∨ sel slot = some a := by
  unfold disabledFor at h
  simp only [Bool.and_eq_false_iff, List.any_eq_false, beq_iff_eq,
    Bool.not_eq_false, Bool.not_eq_false', beq_eq_false_iff_ne, ne_eq] at h
  rcases h with h | h
  · rcases h with h | h
    · exact Or.inl fun s hs => h s (mem_allSlots s) hs
    · exact Or.inr (Or.inl h)
  · exact Or.inr (Or.inr h)

/-- C1: duplicate-prevention invariant.  For every selection state
reachable by a sequence of `select(slot, id)` calls each of which the
interaction surface offers (the identifier is not disabled for the slot,
or is the slot's own current value), no two distinct slots simultaneously
hold the same non-empty identifier. -/
theorem sel_duplicate_prevention :
    ∀ sel, ReachableSel sel → DistinctSel sel := by
  intro sel h
  induction h with
  | init =>
      intro s1 s2 a _ h1 _
      exact Option.noConfusion h1
  | step sel slot a _ hallow ih =>
      intro s1 s2 b hne h1 h2
      unfold selectAgent at h1 h2
      have notDisabled : sel slot = some a ∨ disabledFor sel slot a = false := by
        unfold allowedSelect at hallow
        simp only [Bool.not_eq_true', Bool.and_eq_false_iff] at hallow
        rcases hallow with hd | hd
        · exact Or.inr hd
        · simp only [Bool.not_eq_false', beq_iff_eq] at hd
          exact Or.inl hd
      by_cases e1 : s1 = slot <;> by_cases e2 : s2 = slot
      · exact absurd (e1.trans e2.symm) hne
      · rw [if_pos e1] at h1
        rw [if_neg e2] at h2
        injection h1 with hab
        subst hab
        rcases notDisabled with hown | hdis
        · exact ih slot s2 a (e1 ▸ hne) hown h2
        · rcases disabledFor_false sel slot a hdis with hfree | hempty | hself
          · exact absurd h2 (hfree s2)
          · exact hempty
          · exact ih slot s2 a (e1 ▸ hne) hself h2
      · rw [if_pos e2] at h2
        rw [if_neg e1] at h1
        injection h2 with hab
        subst hab
        rcases notDisabled with hown | hdis
        · exact ih s1 slot a (e2 ▸ hne) h1 hown
        · rcases disabledFor_false sel slot a hdis with hfree | hempty | hself
          · exact absurd h1 (hfree s1)
          · exact hempty
          · exact ih s1 slot a (e2 ▸ hne) h1 hself
      · rw [if_neg e1] at h1
        rw [if_neg e2] at h2
        exact ih s1 s2 b hne h1 h2

theorem sel_duplicate_prevention_witness :
    ReachableSel selTwo ∧ DistinctSel selTwo := by
  have h1 : ReachableSel (selectAgent (fun _ => none) .left1 "openai/gpt-4o") :=
    ReachableSel.step _ _ _ ReachableSel.init (by decide)
  have h2 : ReachableSel selTwo :=
    ReachableSel.step _ _ _ h1 (by decide)
  exact ⟨h2, sel_duplicate_prevention _ h2⟩

/-- The preview update touches only the three preview cells. -/
theorem previewUpdate_frame (s : DashState) (snap : Snapshot) :
    (previewUpdate s snap).progress = s.progress ∧
    (previewUpdate s snap).simulationStatus = s.simulationStatus ∧
    (previewUpdate s snap).isRunning = s.isRunning ∧
    (previewUpdate s snap).currentTask = s.currentTask ∧
    (previewUpdate s snap).genStates = s.genStates ∧
    (previewUpdate s snap).lastGenerating = s.lastGenerating ∧
    (previewUpdate s snap).simulationResults = s.simulationResults ∧
    (previewUpdate s snap).selectedAgents = s.selectedAgents ∧
    (previewUpdate s snap).selectedStock = s.selectedStock ∧
    (previewUpdate s snap).showInstructions = s.showInstructions := by
  unfold previewUpdate
  split
  · exact ⟨rfl, rfl, rfl, rfl, rfl, rfl, rfl, rfl, rfl, rfl⟩
  · split
    · exact ⟨rfl, rfl, rfl, rfl, rfl, rfl, rfl, rfl, rfl, rfl⟩
    · split
      · exact ⟨rfl, rfl, rfl, rfl, rfl, rfl, rfl, rfl, rfl, rfl⟩
      · exact ⟨rfl, rfl, rfl, rfl, rfl, rfl, rfl, rfl, rfl, rfl⟩

/-- The message interpreter touches only `currentTask`, `genStates` and
`lastGenerating`. -/
theorem parseProgressMessage_frame (s : DashState) (m : String) :
    (parseProgressMessage s m).progress = s.progress ∧
    (parseProgressMessage s m).simulationStatus = s.simulationStatus ∧
    (parseProgressMessage s m).isRunning = s.isRunning ∧
    (parseProgressMessage s m).codePreview = s.codePreview ∧
    (parseProgressMessage s m).codePreviewModel = s.codePreviewModel ∧
    (parseProgressMessage s m).lastPreviewModel = s.lastPreviewModel ∧
    (parseProgressMessage s m).simulationResults = s.simulationResults ∧
    (parseProgressMessage s m).showInstructions = s.showInstructions ∧
    (parseProgressMessage s m).selectedAgents = s.selectedAgents ∧
    (parseProgressMessage s m).selectedStock = s.selectedStock := by
  unfold parseProgressMessage
  split
  · dsimp only
    split
    · split
      · exact ⟨rfl, rfl, rfl, rfl, rfl, rfl, rfl, rfl, rfl, rfl⟩
      · exact ⟨rfl, rfl, rfl, rfl, rfl, rfl, rfl, rfl, rfl, rfl⟩
    · exact ⟨rfl, rfl, rfl, rfl, rfl, rfl, rfl, rfl, rfl, rfl⟩
  · dsimp only
    split
    · exact ⟨rfl, rfl, rfl, rfl, rfl, rfl, rfl, rfl, rfl, rfl⟩
    · exact ⟨rfl, rfl, rfl, rfl, rfl, rfl, rfl, rfl, rfl, rfl⟩

/-- In the still-running branch, the poll transition sets the progress to
the snapshot's (defaulted) percentage and the status line to the
effective message. -/
theorem pollStep_running (s : DashState) (snap : Snapshot)
    (hc : snap.status ≠ "completed") (he : snap.status ≠ "error") :
    (pollStep s snap).progress = pctOf snap ∧
    (pollStep s snap).simulationStatus = some (effectiveMessage snap) := by
  unfold pollStep
  rw [if_neg hc, if_neg he]
  dsimp only
  constructor
  · rw [(parseProgressMessage_frame _ _).1, (previewUpdate_frame _ _).1]
  · rw [(parseProgressMessage_frame _ _).2.1, (previewUpdate_frame _ _).2.1]

/-- C5: reset (`Back`), from any state, restores progress to 0, clears
results, status text, current-task text, code preview and its attributed
source (and the preview ref), the Generation State Map and the
last-generating ref, sets the run flag false and shows the instructional
panel again, while leaving the Selection State and the dataset choice
unchanged. -/
theorem reset_frame_effect (s : DashState) :
    (handleBack s).progress = 0 ∧
    (handleBack s).simulationResults = none ∧
    (handleBack s).simulationStatus = none ∧
    (handleBack s).currentTask = "" ∧
    (handleBack s).codePreview = "" ∧
    (handleBack s).codePreviewModel = "" ∧
    (handleBack s).lastPreviewModel = "" ∧
    (handleBack s).genStates = (fun _ => none) ∧
    (handleBack s).lastGenerating = none ∧
    (handleBack s).isRunning = false ∧
    (handleBack s).showInstructions = true ∧
    (handleBack s).selectedAgents = s.selectedAgents ∧
    (handleBack s).selectedStock = s.selectedStock :=
  ⟨rfl, rfl, rfl, rfl, rfl, rfl, rfl, rfl, rfl, rfl, rfl, rfl, rfl⟩

/-- C10: in the still-running branch, a snapshot whose `progress` field
is absent or not a number sets the stored progress to 0 (the previous
value is not kept), and when the snapshot carries no message the status
line becomes the template string built from the (possibly defaulted)
percentage. -/
theorem running_progress_default (s : DashState) (snap : Snapshot)
    (hc : snap.status ≠ "completed") (he : snap.status ≠ "error") :
    ((snap.progress = ProgressField.missing ∨
      snap.progress = ProgressField.nonNum) →
      (pollStep s snap).progress = 0) ∧
    (snap.message = none →
      (pollStep s snap).simulationStatus =
        some ("Running... " ++ toString (pctOf snap) ++ "%")) := by
  constructor
  · intro hp
    rw [(pollStep_running s snap hc he).1]
    unfold pctOf
    rcases hp with hp | hp <;> rw [hp]
  · intro hm
    rw [(pollStep_running s snap hc he).2]
    unfold effectiveMessage
    rw [hm]
    rfl

theorem running_progress_default_witness :
    (pollStep dash55 snapNoNum).progress = 0 ∧
    (pollStep dash55 snapNoNum).simulationStatus =
      some "Running... 0%" := by
  have h := running_progress_default dash55 snapNoNum
    (by decide) (by decide)
  exact ⟨h.1 (Or.inl rfl), h.2 rfl⟩

/-- C4 counterexample: a snapshot with status `running` and progress
field 100 makes the stored progress exactly 100 although no `completed`
snapshot was received, contradicting the claim that only a `completed`
snapshot can make the progress 100. -/
theorem progress_100_running_cex :
    snapRun100.status ≠ "completed" ∧ snapRun100.status ≠ "error" ∧
    (pollStep dash90 snapRun100).progress = 100 :=
  ⟨by decide, by decide, by decide⟩

/-- C4 (amended): a `completed` snapshot always sets progress to exactly
100; an `error` snapshot leaves the progress unchanged; a still-running
snapshot sets the progress to its own (defaulted) numeric progress field
— which equals 100 exactly when the snapshot itself carries progress
100, so 100 is reachable without a `completed` snapshot. -/
theorem pollStep_progress_characterization (s : DashState)
    (snap : Snapshot) :
    (snap.status = "completed" → (pollStep s snap).progress = 100) ∧
    (snap.status = "error" → (pollStep s snap).progress = s.progress) ∧
    (snap.status ≠ "completed" → snap.status ≠ "error" →
      (pollStep s snap).progress = pctOf snap) := by
  refine ⟨fun hc => ?_, fun he => ?_, fun hc he => (pollStep_running s snap hc he).1⟩
  · unfold pollStep
    rw [if_pos hc]
  · unfold pollStep
    rw [if_neg (by rw [he]; decide), if_pos he]

theorem pollStep_progress_characterization_witness :
    (pollStep dash90 snapCompleted87).progress = 100 ∧
    (pollStep dash90 snapError12).progress = 90 := by
  have h1 := pollStep_progress_characterization dash90 snapCompleted87
  have h2 := pollStep_progress_characterization dash90 snapError12
  exact ⟨h1.1 rfl, h2.2.1 rfl⟩

/-- C6: on a message matching the generating pattern, the interpreter
marks the previously generating identifier `done` when one exists and
differs from the newly named one, marks the newly named identifier
`generating` and records it as the new last-generating identifier, and
leaves every other map entry unchanged. -/
theorem gen_message_update (s : DashState) (msg model : String)
    (h : extractGenModel msg = some model) :
    (parseProgressMessage s msg).lastGenerating = some model ∧
    (parseProgressMessage s msg).genStates model =
      some GenState.generating ∧
    (∀ p, s.lastGenerating = some p → p ≠ model →
      (parseProgressMessage s msg).genStates p = some GenState.done) ∧
    (∀ k, k ≠ model → s.lastGenerating ≠ some k →
      (parseProgressMessage s msg).genStates k = s.genStates k) := by
  unfold parseProgressMessage
  rw [h]
  dsimp only
  cases hlast : s.lastGenerating with
  | none =>
      dsimp only
      exact ⟨rfl, by simp [updGen], fun p hp _ => Option.noConfusion hp,
        fun k hk _ => by simp [updGen, hk]⟩
  | some prev =>
      dsimp only
      by_cases hpm : prev ≠ model
      · rw [if_pos hpm]
        refine ⟨rfl, by simp [updGen], fun p hp hpmodel => ?_,
          fun k hk hkl => ?_⟩
        · injection hp with hp
          subst hp
          simp [updGen, hpmodel]
        · have hkp : k ≠ prev := fun he => hkl (by rw [he])
          simp [updGen, hk, hkp]
      · rw [if_neg hpm]
        push_neg at hpm
        subst hpm
        refine ⟨rfl, by simp [updGen], fun p hp hpmodel => ?_,
          fun k hk _ => ?_⟩
        · injection hp with hp
          exact absurd hp.symm hpmodel
        · simp [updGen, hk]

theorem gen_message_update_witness :
    extractGenModel "Generating algorithm 2/6 using B..." = some "B" ∧
    (parseProgressMessage dashGenA
      "Generating algorithm 2/6 using B...").lastGenerating = some "B" ∧
    (parseProgressMessage dashGenA
      "Generating algorithm 2/6 using B...").genStates "B" =
      some GenState.generating ∧
    (parseProgressMessage dashGenA
      "Generating algorithm 2/6 using B...").genStates "A" =
      some GenState.done ∧
    (parseProgressMessage dashGenA
      "Generating algorithm 2/6 using B...").genStates "C" = none := by
  have hm : extractGenModel "Generating algorithm 2/6 using B..." =
      some "B" := by decide
  have h := gen_message_update dashGenA
    "Generating algorithm 2/6 using B..." "B" hm
  refine ⟨hm, h.1, h.2.1, h.2.2.1 "A" rfl (by decide), ?_⟩
  rw [h.2.2.2 "C" (by decide) (by decide)]
  decide

/-- C7: on the completion phrase (and no generating-pattern match, which
the interpreter checks first), every present entry of the Generation
State Map becomes `done`, absent entries stay absent, no identifier is
left at `generating`, and the last-generating identifier is cleared. -/
theorem completion_marks_all_done (s : DashState) (msg : String)
    (hg : extractGenModel msg = none) (hc : isCompletionMsg msg = true) :
    (∀ k v, s.genStates k = some v →
      (parseProgressMessage s msg).genStates k = some GenState.done) ∧
    (∀ k, s.genStates k = none →
      (parseProgressMessage s msg).genStates k = none) ∧
    (∀ k, (parseProgressMessage s msg).genStates k ≠
      some GenState.generating) ∧
    (parseProgressMessage s msg).lastGenerating = none := by
  unfold parseProgressMessage
  rw [hg]
  dsimp only
  rw [if_pos hc]
  refine ⟨fun k v hk => by simp [hk], fun k hk => by simp [hk],
    fun k => ?_, rfl⟩
  dsimp only
  cases s.genStates k <;> simp

theorem completion_marks_all_done_witness :
    extractGenModel "All algorithms generated successfully" = none ∧
    isCompletionMsg "All algorithms generated successfully" = true ∧
    (parseProgressMessage seqState
      "All algorithms generated successfully").genStates "A" =
      some GenState.done ∧
    (parseProgressMessage seqState
      "All algorithms generated successfully").genStates "B" =
      some GenState.done ∧
    (∀ k, (parseProgressMessage seqState
      "All algorithms generated successfully").genStates k ≠
      some GenState.generating) ∧
    (parseProgressMessage seqState
      "All algorithms generated successfully").lastGenerating = none := by
  have hg : extractGenModel "All algorithms generated successfully" =
      none := by decide
  have hc : isCompletionMsg "All algorithms generated successfully" =
      true := by decide
  have h := completion_marks_all_done seqState
    "All algorithms generated successfully" hg hc
  exact ⟨hg, hc, h.1 "A" GenState.done (by decide),
    h.1 "B" GenState.generating (by decide), h.2.2.1, h.2.2.2⟩

/-- In the still-running branch, the preview cells after the poll are
those produced by the preview update on the status/progress-updated
state. -/
theorem pollStep_running_preview (s : DashState) (snap : Snapshot)
    (hc : snap.status ≠ "completed") (he : snap.status ≠ "error") :
    (pollStep s snap).codePreview =
      (previewUpdate
        { s with simulationStatus := some (effectiveMessage snap),
                 progress := pctOf snap } snap).codePreview ∧
    (pollStep s snap).codePreviewModel =
      (previewUpdate
        { s with simulationStatus := some (effectiveMessage snap),
                 progress := pctOf snap } snap).codePreviewModel := by
  unfold pollStep
  rw [if_neg hc, if_neg he]
  dsimp only
  exact ⟨(parseProgressMessage_frame _ _).2.2.2.1,
    (parseProgressMessage_frame _ _).2.2.2.2.1⟩

/-- C8: for a still-running snapshot, when the snapshot carries a
non-empty preview string the displayed preview and its attributed source
are rewritten exactly when the incoming source identifier differs from
the attributed one or the preview text differs from the displayed one;
an identical pair leaves both unchanged, and a snapshot with no (or an
empty) preview string never changes them.  The hypothesis
`s.lastPreviewModel = s.codePreviewModel` records that the comparison
ref always mirrors the attributed source (both are written and cleared
only together). -/
theorem preview_update_iff (s : DashState) (snap : Snapshot)
    (hc : snap.status ≠ "completed") (he : snap.status ≠ "error")
    (href : s.lastPreviewModel = s.codePreviewModel) :
    (∀ cp, snap.code_preview = some cp → cp ≠ "" →
      (((snap.preview_model).getD "" ≠ s.codePreviewModel ∨
          cp ≠ s.codePreview) →
        (pollStep s snap).codePreview = cp ∧
        (pollStep s snap).codePreviewModel =
          (snap.preview_model).getD "") ∧
      ((snap.preview_model).getD "" = s.codePreviewModel ∧
          cp = s.codePreview →
        (pollStep s snap).codePreview = s.codePreview ∧
        (pollStep s snap).codePreviewModel = s.codePreviewModel)) ∧
    ((snap.code_preview = none ∨ snap.code_preview = some "") →
      (pollStep s snap).codePreview = s.codePreview ∧
      (pollStep s snap).codePreviewModel = s.codePreviewModel) := by
  have hpv := pollStep_running_preview s snap hc he
  rw [hpv.1, hpv.2]
  constructor
  · intro cp hcp hne
    unfold previewUpdate
    rw [hcp]
    dsimp only
    rw [if_neg hne]
    constructor
    · intro hcond
      have hcond' : (snap.preview_model).getD "" ≠ s.lastPreviewModel ∨
          cp ≠ s.codePreview := by
        rw [href]
        exact hcond
      rw [if_pos hcond']
      exact ⟨rfl, rfl⟩
    · intro hsame
      have hcond' : ¬((snap.preview_model).getD "" ≠ s.lastPreviewModel ∨
          cp ≠ s.codePreview) := by
        rw [href]
        push_neg
        exact hsame
      rw [if_neg hcond']
      exact ⟨rfl, rfl⟩
  · intro hcp
    unfold previewUpdate
    rcases hcp with hcp | hcp <;> rw [hcp]
    · exact ⟨rfl, rfl⟩
    · dsimp only
      rw [if_pos rfl]
      exact ⟨rfl, rfl⟩

theorem preview_update_iff_witness :
    dashPrevM.lastPreviewModel = dashPrevM.codePreviewModel ∧
    (pollStep dashPrevM snapNewCode).codePreview = "new code" ∧
    (pollStep dashPrevM snapNewCode).codePreviewModel = "M" := by
  have h := preview_update_iff dashPrevM snapNewCode
    (by decide) (by decide) rfl
  have h2 := (h.1 "new code" rfl (by decide)).1 (Or.inr (by decide))
  exact ⟨rfl, h2.1, h2.2⟩

/-- C3 counterexample: with all six slots non-empty but only five
distinct identifiers, validation passes and the creation request is
issued (the run starts), contradicting the claim that such a selection
is rejected with a `ValidationError` and no request. -/
theorem submit_duplicate_accepted_cex :
    (nonEmptyAgents dashDup).length = 6 ∧
    (nonEmptyAgents dashDup).dedup.length = 5 ∧
    (handleStartSimulation dashDup (SubmitOutcome.ok "sim-1")).2 = 1 ∧
    (handleStartSimulation dashDup
      (SubmitOutcome.ok "sim-1")).1.isRunning = true :=
  ⟨by decide, by decide, by decide, by decide⟩

/-- C3 (amended): `submit()` fails (no creation request is issued and
the state is unchanged) if and only if fewer than six slot values are
non-empty or no dataset is chosen; distinctness is not checked, so six
non-empty slots containing duplicates pass validation.  With six
non-empty slots and a dataset, exactly one creation request is issued. -/
theorem submit_validation_iff (s : DashState) (out : SubmitOutcome) :
    ((handleStartSimulation s out).2 = 1 ↔
      (nonEmptyAgents s).length = 6 ∧ s.selectedStock ≠ "") ∧
    ((nonEmptyAgents s).length ≠ 6 ∨ s.selectedStock = "" →
      (handleStartSimulation s out).1 = s ∧
      (handleStartSimulation s out).2 = 0) := by
  unfold handleStartSimulation
  dsimp only
  by_cases hlen : (nonEmptyAgents s).length = 6
  · rw [if_neg (not_not_intro hlen)]
    by_cases hst : s.selectedStock = ""
    · rw [if_pos hst]
      exact ⟨by simp [hst], fun _ => ⟨rfl, rfl⟩⟩
    · rw [if_neg hst]
      constructor
      · cases out <;> simp [hlen, hst]
      · intro hcontra
        rcases hcontra with hcontra | hcontra
        · exact absurd hlen hcontra
        · exact absurd hcontra hst
  · rw [if_pos hlen]
    exact ⟨by simp [hlen], fun _ => ⟨rfl, rfl⟩⟩

theorem submit_validation_iff_witness :
    (nonEmptyAgents dashSix).length = 6 ∧
    dashSix.selectedStock ≠ "" ∧
    (handleStartSimulation dashSix (SubmitOutcome.ok "sim-1")).2 = 1 ∧
    (handleStartSimulation { dashSix with selectedStock := "" }
      (SubmitOutcome.ok "sim-1")).2 = 0 := by
  have h1 := submit_validation_iff dashSix (SubmitOutcome.ok "sim-1")
  have h2 := submit_validation_iff { dashSix with selectedStock := "" }
    (SubmitOutcome.ok "sim-1")
  exact ⟨by decide, by decide, h1.1.mpr ⟨by decide, by decide⟩,
    (h2.2 (Or.inr rfl)).2⟩

/-- C9 counterexample: before a failed submit the instructional panel is
shown (`showInstructions = true`); after the failed submit it is not
restored (`showInstructions = false`), contradicting the claim that the
pre-run (instructional) state is as it was before the failed submit. -/
theorem submit_failure_instructions_cex :
    dashSix.showInstructions = true ∧
    (handleStartSimulation dashSix
      (SubmitOutcome.httpErr none)).1.showInstructions = false :=
  ⟨rfl, by decide⟩

/-- C9 (amended): on a non-success response or transport failure,
`submit()` surfaces a `SubmissionError` — the status text becomes
`Error:` followed by the server-reported message if present and
non-empty, else the generic "Failed to start simulation" (or the
transport exception's message) — the run flag is cleared so the submit
action is available again, and the selection and dataset are unchanged;
however the instructional flag remains false (the progress panel stays
shown), the results stay cleared and the progress stays reset. -/
theorem submit_failure_effects (s : DashState)
    (hlen : (nonEmptyAgents s).length = 6)
    (hst : s.selectedStock ≠ "") :
    (∀ e,
      (handleStartSimulation s
        (SubmitOutcome.httpErr e)).1.simulationStatus =
        some ("Error: " ++ submitErrMsg e) ∧
      (handleStartSimulation s (SubmitOutcome.httpErr e)).1.isRunning =
        false ∧
      (handleStartSimulation s
        (SubmitOutcome.httpErr e)).1.showInstructions = false ∧
      (handleStartSimulation s
        (SubmitOutcome.httpErr e)).1.selectedAgents = s.selectedAgents ∧
      (handleStartSimulation s
        (SubmitOutcome.httpErr e)).1.selectedStock = s.selectedStock ∧
      (handleStartSimulation s
        (SubmitOutcome.httpErr e)).1.simulationResults = none ∧
      (handleStartSimulation s (SubmitOutcome.httpErr e)).1.progress =
        0) ∧
    (∀ m,
      (handleStartSimulation s
        (SubmitOutcome.transportErr m)).1.simulationStatus =
        some ("Error: " ++ m) ∧
      (handleStartSimulation s
        (SubmitOutcome.transportErr m)).1.isRunning = false ∧
      (handleStartSimulation s
        (SubmitOutcome.transportErr m)).1.showInstructions = false ∧
      (handleStartSimulation s
        (SubmitOutcome.transportErr m)).1.selectedAgents =
        s.selectedAgents ∧
      (handleStartSimulation s
        (SubmitOutcome.transportErr m)).1.selectedStock =
        s.selectedStock ∧
      (handleStartSimulation s
        (SubmitOutcome.transportErr m)).1.simulationResults = none ∧
      (handleStartSimulation s (SubmitOutcome.transportErr m)).1.progress
        = 0) := by
  constructor
  · intro e
    unfold handleStartSimulation
    dsimp only
    rw [if_neg (not_not_intro hlen), if_neg hst]
    exact ⟨rfl, rfl, rfl, rfl, rfl, rfl, rfl⟩
  · intro m
    unfold handleStartSimulation
    dsimp only
    rw [if_neg (not_not_intro hlen), if_neg hst]
    exact ⟨rfl, rfl, rfl, rfl, rfl, rfl, rfl⟩

theorem submit_failure_effects_witness :
    (nonEmptyAgents dashSix).length = 6 ∧
    dashSix.selectedStock ≠ "" ∧
    (handleStartSimulation dashSix
      (SubmitOutcome.httpErr (some "quota exceeded"))).1.simulationStatus
      = some "Error: quota exceeded" ∧
    (handleStartSimulation dashSix
      (SubmitOutcome.httpErr (some "quota exceeded"))).1.isRunning =
      false ∧
    (handleStartSimulation dashSix
      (SubmitOutcome.httpErr (some ""))).1.simulationStatus =
      some "Error: Failed to start simulation" ∧
    (handleStartSimulation dashSix
      (SubmitOutcome.httpErr none)).1.simulationStatus =
      some "Error: Failed to start simulation" := by
  have h := submit_failure_effects dashSix (by decide) (by decide)
  have he := h.1 (some "quota exceeded")
  have hempty := h.1 (some "")
  have hnone := h.1 none
  exact ⟨by decide, by decide, he.1, he.2.1, hempty.1, hnone.1⟩

/-- C2 counterexample: a run is started (one poll in flight), the user
presses Back — the state returns to idle (progress 0, no status text) —
and then the pre-reset poll's response arrives: it is applied, setting
progress to 40 and the status line to "Running... 40%", and polling
continues (`pendingPolls` is back to 1).  This contradicts the claim
that after reset no state update from the pre-reset run ever lands. -/
theorem reset_poll_applied_cex :
    (sysStep sysRunning SysEv.back).dash.progress = 0 ∧
    (sysStep sysRunning SysEv.back).dash.simulationStatus = none ∧
    (sysStep sysRunning SysEv.back).pendingPolls = 1 ∧
    (sysStep (sysStep sysRunning SysEv.back)
      (SysEv.pollResp snapRun40)).dash.progress = 40 ∧
    (sysStep (sysStep sysRunning SysEv.back)
      (SysEv.pollResp snapRun40)).dash.simulationStatus =
      some "Running... 40%" ∧
    (sysStep (sysStep sysRunning SysEv.back)
      (SysEv.pollResp snapRun40)).pendingPolls = 1 :=
  ⟨by decide, by decide, by decide, by decide, by decide, by decide⟩

/-- C2 (amended): the reset (Back) handler contains no cancellation —
it leaves every scheduled or in-flight poll pending, and when such a
poll's response arrives after the reset it is applied to the now-idle
state exactly as the poll transition prescribes (so pre-reset updates do
land after reset). -/
theorem reset_no_cancellation (s : SysState) (snap : Snapshot)
    (h : 0 < s.pendingPolls) :
    (sysStep s SysEv.back).pendingPolls = s.pendingPolls ∧
    (sysStep (sysStep s SysEv.back) (SysEv.pollResp snap)).dash =
      pollStep (handleBack s.dash) snap := by
  constructor
  · rfl
  · unfold sysStep
    dsimp only
    rw [if_neg (Nat.pos_iff_ne_zero.mp h)]

theorem reset_no_cancellation_witness :
    0 < sysRunning.pendingPolls ∧
    (sysStep (sysStep sysRunning SysEv.back)
      (SysEv.pollResp snapRun40)).dash =
      pollStep (handleBack sysRunning.dash) snapRun40 := by
  have h := reset_no_cancellation sysRunning snapRun40 (by decide)
  exact ⟨by decide, h.2⟩

end Battlefield
